import Mathlib

/-!
Verification of the leak-lookup bot's normalization and delivery pipeline
(`main.py`) against its specification.

Shallow embedding conventions:
* Python JSON values are modelled by the inductive `Json` below; JSON numbers
  are modelled as integers (no claim depends on float formatting).
* Python `dict`s are modelled as association lists `List (String × Json)` in
  insertion order; `d.get(k)` is `pyGet` (first matching key), `d.get(k, v)`
  is `pyGetD`.
* Python truthiness (`or`-chains, `if x:`) is `pyTruthy`/`pyOr`.
* Code that can raise an exception is modelled in `Option` (`none` = a raised
  exception propagating out of the function).
* Python `str` values are Lean `String`s; where character-level slicing
  matters (the chunker, email validation) we work on `List Char`, which
  matches Python's code-point sequences.
-/

/-- A JSON value, as produced by `requests.Response.json()`. -/
inductive Json where
  | null : Json
  | bool : Bool → Json
  | num : Int → Json
  | str : String → Json
  | arr : List Json → Json
  | obj : List (String × Json) → Json

/-- Python truthiness of a JSON value: `None`, `False`, `0`, `""`, `[]`, `{}`
are falsy, everything else truthy. -/
def pyTruthy : Json → Bool
  | Json.null => false
  | Json.bool b => b
  | Json.num n => n != 0
  | Json.str s => s != ""
  | Json.arr xs => !xs.isEmpty
  | Json.obj kvs => !kvs.isEmpty

/-- Python `a or b`: `a` if truthy, else `b`. -/
def pyOr (a b : Json) : Json := if pyTruthy a then a else b

/-- Python `item.get(k)`: the value at `k`, or `None` when absent. -/
def pyGet (item : List (String × Json)) (k : String) : Json :=
  (item.lookup k).getD Json.null

/-- Python `item.get(k, dflt)`. -/
def pyGetD (item : List (String × Json)) (k : String) (dflt : Json) : Json :=
  (item.lookup k).getD dflt

mutual
/-- Python `repr` of a JSON-shaped value (used by `str` on containers).
Numbers are modelled as integers; string escaping inside `repr` is not
modelled (no claim depends on it). -/
def pyRepr : Json → String
  | Json.null => "None"
  | Json.bool true => "True"
  | Json.bool false => "False"
  | Json.num n => toString n
  | Json.str s => "\x27" ++ s ++ "\x27"
  | Json.arr xs => "[" ++ String.intercalate ", " (pyReprList xs) ++ "]"
  | Json.obj kvs => "\x7b" ++ String.intercalate ", " (pyReprPairs kvs) ++ "\x7d"

def pyReprList : List Json → List String
  | [] => []
  | x :: xs => pyRepr x :: pyReprList xs

def pyReprPairs : List (String × Json) → List String
  | [] => []
  | kv :: kvs => ("\x27" ++ kv.1 ++ "\x27: " ++ pyRepr kv.2) :: pyReprPairs kvs
end

/-- Python `str(x)` on a JSON-shaped value. -/
def pyStr (v : Json) : String :=
  match v with
  | Json.str s => s
  | v => pyRepr v

/-- The record built by `fmt_breach_item` (`main.py` line 90):
`{"name": name, "date": date, "data": data_classes, "raw": item}`.
`name` and `date` keep whatever (possibly non-string) value the `or`-chain
produced; `data` is the `[str(x) for x in ...]` result, a list of strings. -/
structure BreachItem where
  name : Json
  date : Json
  data : List String
  raw : Json

/-- `if isinstance(data_classes, dict): data_classes = list(data_classes.keys())`
(`main.py` lines 85-87). -/
def dict_to_keys : Json → Json
  | Json.obj kvs => Json.arr (kvs.map (Json.str ∘ Prod.fst))
  | v => v

/-- Python `[str(x) for x in v]`: iteration over a JSON-shaped value.
Lists iterate elements, strings iterate characters, dicts iterate keys;
iterating `None`/booleans/numbers raises `TypeError` (modelled `none`). -/
def pyIterStr : Json → Option (List String)
  | Json.arr xs => some (xs.map pyStr)
  | Json.str s => some (s.data.map String.singleton)
  | Json.obj kvs => some (kvs.map Prod.fst)
  | _ => none

/-- The `name` local of `fmt_breach_item` (`main.py` line 82):
`item.get("source") or item.get("site") or item.get("domain") or item.get("Name") or "unknown"`. -/
def name_chain (item : List (String × Json)) : Json :=
  pyOr (pyGet item "source") (pyOr (pyGet item "site")
    (pyOr (pyGet item "domain") (pyOr (pyGet item "Name") (Json.str "unknown"))))

/-- The `date` local of `fmt_breach_item` (`main.py` line 83). -/
def date_chain (item : List (String × Json)) : Json :=
  pyOr (pyGet item "date") (pyOr (pyGet item "BreachDate")
    (pyOr (pyGet item "created_at") (pyOr (pyGet item "publish_date") (Json.str ""))))

/-- The `data_classes` local of `fmt_breach_item` before the dict check
(`main.py` line 84): `item.get("data", []) or item.get("DataClasses", []) or item.get("types", [])`. -/
def data_chain (item : List (String × Json)) : Json :=
  pyOr (pyGetD item "data" (Json.arr [])) (pyOr
    (pyGetD item "DataClasses" (Json.arr [])) (pyGetD item "types" (Json.arr [])))

/-- Body of `fmt_breach_item` (`main.py` lines 80-90) for a mapping item,
with the function's locals factored into the `_chain` helpers above.
`none` models a raised exception (the `TypeError` from iterating a truthy
non-iterable `data` value in `[str(x) for x in (data_classes or [])]`). -/
def fmt_breach_obj (item : List (String × Json)) : Option BreachItem :=
  match pyIterStr (pyOr (dict_to_keys (data_chain item)) (Json.arr [])) with
  | none => none
  | some fields => some ⟨name_chain item, date_chain item, fields, Json.obj item⟩

/-- `fmt_breach_item` on an arbitrary value. Calling `.get` on a non-mapping
raises `AttributeError`, modelled as `none`. -/
def fmt_breach_item : Json → Option BreachItem
  | Json.obj kvs => fmt_breach_obj kvs
  | _ => none

/-- Apply `fmt_breach_item` to a list of items, appending results in order;
the first raised exception propagates (`none`). -/
def fmt_all : List Json → Option (List BreachItem)
  | [] => some []
  | x :: xs =>
    match fmt_breach_item x with
    | none => none
    | some r => (fmt_all xs).map (fun rs => r :: rs)

def Json.isObj : Json → Bool
  | Json.obj _ => true
  | _ => false

/-- The candidate keys probed by `summarize_results` (`main.py` line 97). -/
def candidate_keys : List String := ["results", "data", "items", "matches", "breaches"]

/-- The first candidate key present in the mapping with a list value
(`key in resp_json and isinstance(resp_json[key], list)`), and that list. -/
def firstCandidateList (kvs : List (String × Json)) : Option (List Json) :=
  candidate_keys.findSome? fun k =>
    match kvs.lookup k with
    | some (Json.arr xs) => some xs
    | _ => none

/-- The items collected by the for-else fallback of `summarize_results`
(`main.py` lines 102-109): mapping-typed elements of every list value, in
insertion order. -/
def fallback_items (kvs : List (String × Json)) : List Json :=
  (kvs.map Prod.snd).foldr
    (fun v acc =>
      match v with
      | Json.arr xs => xs.filter Json.isObj ++ acc
      | _ => acc) []

/-- `summarize_results` (`main.py` lines 92-114). Note the first branch
(line 99-100) applies `fmt_breach_item` to every element of the chosen list
with no `isinstance(it, dict)` check, unlike the other two branches. -/
def summarize_results (resp_json : Json) : Option (List BreachItem) :=
  match resp_json with
  | Json.obj kvs =>
    match firstCandidateList kvs with
    | some xs => fmt_all xs
    | none => fmt_all (fallback_items kvs)
  | Json.arr xs => fmt_all (xs.filter Json.isObj)
  | _ => some []

/-- Python `s.strip()` on a code-point list (ASCII whitespace; Python also
strips a few more Unicode space characters, which no claim exercises). -/
def pyStrip (s : List Char) : List Char :=
  List.rdropWhile Char.isWhitespace (s.dropWhile Char.isWhitespace)

/-- Python `s.split(sep)` for a one-character separator: split at every
occurrence, keeping empty parts; the result is never empty. -/
def pySplitOn (sep : Char) : List Char → List (List Char)
  | [] => [[]]
  | c :: rest =>
    if c = sep then [] :: pySplitOn sep rest
    else
      match pySplitOn sep rest with
      | [] => [[c]]
      | h :: t => (c :: h) :: t

/-- `is_likely_email` (`main.py` lines 122-124):
`"@" in s and "." in s.split("@")[-1]` after `s = s.strip()`. -/
def is_likely_email (s : List Char) : Bool :=
  let t := pyStrip s
  t.contains '@' && ((pySplitOn '@' t).getLastD []).contains '.'

/-- Python `s.lower()` (ASCII; Unicode case folding is not claim-relevant). -/
def pyLower (s : List Char) : List Char := s.map Char.toLower

/-- The reply sent when the plausible-email check fails (`main.py` line 130). -/
def format_hint_msg : String :=
  "That doesn\x27t look like an email address. Send like: user@example.com"

/-- The first decision of `handle_check` (`main.py` lines 126-132): either
reject with the format hint (and return without calling `leaklookup_query`),
or proceed to query with the lower-cased trimmed text. -/
inductive HandlerStep where
  | reject : String → HandlerStep
  | lookup : List Char → HandlerStep

def handle_check_route (text : List Char) : HandlerStep :=
  let txt := pyStrip text
  if is_likely_email txt = false then HandlerStep.reject format_hint_msg
  else HandlerStep.lookup (pyLower txt)

/-- Recursion worker for `chunk`, structurally recursive on a fuel argument
so that the kernel can evaluate it; `chunk` supplies `text.length` as fuel,
which always suffices since each step drops at least one character. -/
def chunkAux : Nat → List Char → Nat → List (List Char)
  | 0, _, _ => []
  | fuel + 1, text, limit =>
    if text = [] then []
    else if limit = 0 then []
    else text.take limit :: chunkAux fuel (text.drop limit) limit

/-- The chunking comprehension of `handle_check` (`main.py` line 166):
`[msg[i:i+limit] for i in range(0, len(msg), limit)]`, with the source's
hard-coded `limit = 3000` generalized to a parameter (the spec's `chunk`).
A zero `limit` would make `range` raise `ValueError`; the claims only
concern `limit ≥ 1`. -/
def chunk (text : List Char) (limit : Nat) : List (List Char) :=
  chunkAux text.length text limit

/-- The per-message Telegram limit used at `main.py` line 166. -/
def telegram_chunks (msg : List Char) : List (List Char) := chunk msg 3000

/-- The "no results" reply (`main.py` line 156). -/
def no_results_msg (email : String) : String :=
  "‚úÖ No public results found for \x60" ++ email ++ "\x60 (via Leak-Lookup)."

/-- The report header (`main.py` line 159):
`f"...Leak report for \x60..\x60\nFound ... item(s):\n"` with the count. -/
def leak_header (email : String) (count : Nat) : String :=
  "‚ö†Ô∏è Leak report for \x60" ++ email ++ "\x60\nFound " ++ toString count ++ " item(s):\n"

/-- One record block (`main.py` line 161). `r['date'] or 'unknown'` is the
truthiness fallback; empty `data` renders as "unknown". -/
def breach_line (r : BreachItem) : String :=
  "*Site:* " ++ pyStr r.name ++ "  \n*Date:* " ++ pyStr (pyOr r.date (Json.str "unknown")) ++
    "  \n*Data exposed:* " ++
    (if r.data.isEmpty then "unknown" else String.intercalate ", " r.data) ++ "\n"

/-- The remediation-advice footer (`main.py` line 162). -/
def suggested_footer : String :=
  "\n_Suggested actions:_ Change passwords, enable app-based 2FA, check financial accounts if payment data exposed."

/-- The reply text of the summarize-and-format section of `handle_check`
(`main.py` lines 155-163): the "no results" message for an empty record
list, else the joined header, first-12 record blocks, and footer. -/
def handle_reply (email : String) (results : List BreachItem) : String :=
  if results.isEmpty then no_results_msg email
  else
    String.intercalate "\n"
      (leak_header email results.length :: (results.take 12).map breach_line ++ [suggested_footer])

/-- An HTTP response as seen by `leaklookup_query`: status code, body text,
and the outcome of `r.json()` (parsed value, or the parse exception's text). -/
structure HttpResponse where
  status_code : Nat
  text : String
  json : Except String Json

/-- Outcome of `requests.get`: a response, or a raised exception (whose
display text, for `requests`, typically embeds the full request URL). -/
inductive RequestResult where
  | exn : String → RequestResult
  | ok : HttpResponse → RequestResult

/-- The query parameters built at `main.py` lines 45-49. -/
def leaklookup_params (key : String) (email : String) : List (String × String) :=
  [("key", key), ("type", "email"), ("query", email)]

/-- `isinstance(data, dict) and data.get("error")` (`main.py` line 71). -/
def api_error_flag (data : Json) : Bool :=
  match data with
  | Json.obj kvs => pyTruthy (pyGet kvs "error")
  | _ => false

/-- `data.get("message", "Unknown API error")` (`main.py` line 72). -/
def api_error_msg (data : Json) : Json :=
  match data with
  | Json.obj kvs => pyGetD kvs "message" (Json.str "Unknown API error")
  | _ => Json.str "Unknown API error"

/-- `leaklookup_query` (`main.py` lines 37-76), with the module-level
`LEAKLOOKUP_KEY` passed explicitly (`none` = unset environment variable) and
the network outcome passed as an input. Returns the `(data, error)` pair. -/
def leaklookup_query (key : Option String) (email : String) (net : RequestResult) :
    Option Json × Option String :=
  let _params := leaklookup_params (key.getD "") email
  if key = none ∨ key = some "" then
    (none, some "No API key set (LEAKLOOKUP_KEY missing)")
  else
    match net with
    | RequestResult.exn e => (none, some ("Request failed: " ++ e))
    | RequestResult.ok r =>
      if r.status_code ≠ 200 then
        (none, some ("HTTP " ++ toString r.status_code ++ ": " ++ r.text.take 400))
      else
        match r.json with
        | Except.error e =>
          (none, some ("Invalid JSON response: " ++ e ++ " - " ++ r.text.take 300))
        | Except.ok data =>
          if api_error_flag data then
            (none, some ("API error: " ++ pyStr (api_error_msg data)))
          else (some data, none)

/-- `needle` occurs as a contiguous substring of `hay`. -/
def strOccurs (needle hay : String) : Bool :=
  (List.range (hay.data.length + 1)).any fun i => needle.data.isPrefixOf (hay.data.drop i)

/-- First-truthy-wins field extraction over an ordered key list, as the
amended claims describe it: the value of the first key whose value is
truthy, else the default. -/
def firstTruthyValue : List String → List (String × Json) → Json → Json
  | [], _, dflt => dflt
  | k :: ks, item, dflt =>
    if pyTruthy (pyGet item k) then pyGet item k else firstTruthyValue ks item dflt

/-- Field-list extraction from a resolved value, as the amended C5
describes it: dict keys, coerced sequence elements, string characters;
`none` where iterating a truthy non-iterable raises. -/
def spec_fields_of : Json → Option (List String)
  | Json.obj kvs => some (kvs.map Prod.fst)
  | Json.arr xs => some (xs.map pyStr)
  | Json.str s => some (s.data.map String.singleton)
  | _ => none

/-- The exposed-fields list the amended C5 describes, keyed on the first
truthy value among `data`, `DataClasses`, `types` (empty when none is
truthy). -/
def spec_exposed_fields (item : List (String × Json)) : Option (List String) :=
  spec_fields_of (firstTruthyValue ["data", "DataClasses", "types"] item (Json.arr []))

theorem chunkAux_flatten (N : Nat) (hN : 1 ≤ N) :
    ∀ (fuel : Nat) (text : List Char), text.length ≤ fuel →
      (chunkAux fuel text N).flatten = text := by
  intro fuel
  induction fuel with
  | zero =>
    intro text hle
    have : text = [] := List.length_eq_zero.mp (Nat.le_zero.mp hle)
    simp [this, chunkAux]
  | succ fuel ih =>
    intro text hle
    by_cases he : text = []
    · simp [he, chunkAux]
    · have hN0 : ¬ N = 0 := by omega
      have h0 : 0 < text.length := List.length_pos.mpr he
      rw [chunkAux, if_neg he, if_neg hN0, List.flatten_cons,
        ih (text.drop N) (by rw [List.length_drop]; omega)]
      exact List.take_append_drop N text

theorem chunkAux_length_le (N : Nat) :
    ∀ (fuel : Nat) (text : List Char), ∀ seg ∈ chunkAux fuel text N, seg.length ≤ N := by
  intro fuel
  induction fuel with
  | zero => intro text seg hseg; simp [chunkAux] at hseg
  | succ fuel ih =>
    intro text seg hseg
    rw [chunkAux] at hseg
    by_cases he : text = []
    · simp [he] at hseg
    · rw [if_neg he] at hseg
      by_cases hN0 : N = 0
      · simp [hN0] at hseg
      · rw [if_neg hN0] at hseg
        rcases List.mem_cons.mp hseg with h | h
        · rw [h]; exact List.length_take_le N text
        · exact ih (text.drop N) seg h

/-- C2: for every text and every `N ≥ 1`, concatenating the segments
returned by `chunk text N` reconstructs `text` exactly. -/
theorem chunk_concat_roundtrip (text : List Char) (N : Nat) (hN : 1 ≤ N) :
    (chunk text N).flatten = text :=
  chunkAux_flatten N hN text.length text (Nat.le_refl _)

theorem chunk_concat_roundtrip_witness :
    1 ≤ 3 ∧ (chunk "hello!!".data 3).flatten = "hello!!".data :=
  ⟨by decide, chunk_concat_roundtrip "hello!!".data 3 (by decide)⟩

/-- C6: for every text and every `N ≥ 1`, every segment produced by
`chunk text N` has length at most `N`. -/
theorem chunk_segment_length_le (text : List Char) (N : Nat) (_hN : 1 ≤ N) :
    ∀ seg ∈ chunk text N, seg.length ≤ N :=
  fun seg hseg => chunkAux_length_le N text.length text seg hseg

theorem chunk_segment_length_le_witness :
    1 ≤ 3 ∧ "hel".data ∈ chunk "hello!!".data 3 ∧ ("hel".data).length ≤ 3 :=
  ⟨by decide, by decide, chunk_segment_length_le "hello!!".data 3 (by decide) "hel".data (by decide)⟩

/-- C1: refuted by the code. With payload
`{"results": [{"source": "a"}, 42]}`, the candidate-key branch of
`summarize_results` applies `fmt_breach_item` to the non-mapping element
`42` as well (line 100 has no `isinstance(it, dict)` guard), whose
`item.get` raises `AttributeError` (modelled `none`); the claim instead
requires the non-mapping element to be skipped, yielding the single record
the second conjunct exhibits for the mapping-only payload. -/
theorem summarize_results_errors_on_nonmapping_element :
    summarize_results (Json.obj [("results",
        Json.arr [Json.obj [("source", Json.str "a")], Json.num 42])]) = none ∧
    summarize_results (Json.obj [("results", Json.arr [Json.obj [("source", Json.str "a")]])]) =
      some [⟨Json.str "a", Json.str "", [], Json.obj [("source", Json.str "a")]⟩] :=
  ⟨rfl, rfl⟩

/-- C3: refuted by the code. `summarize_results` does return an empty
sequence on scalars and the empty mapping (second and third conjuncts), but
it is not total: with payload `{"results": [{"data": 5}]}` the element is a
mapping, yet `[str(x) for x in 5]` raises `TypeError` (modelled `none`). -/
theorem summarize_results_errors_on_noniterable_data :
    summarize_results (Json.obj [("results", Json.arr [Json.obj [("data", Json.num 5)]])]) = none ∧
    summarize_results (Json.num 3) = some [] ∧
    summarize_results (Json.obj []) = some [] :=
  ⟨rfl, rfl, rfl⟩

/-- C10: when some candidate key among `results`, `data`, `items`,
`matches`, `breaches` is present with a list value, `summarize_results`
commits to the first such key (the records come from that list alone, the
fallback scan is never applied); in particular a first matching candidate
list that is empty yields an empty record sequence regardless of the other
mapping entries. -/
theorem summarize_commits_first_candidate (kvs : List (String × Json)) :
    (∀ xs, firstCandidateList kvs = some xs →
        summarize_results (Json.obj kvs) = fmt_all xs) ∧
    (firstCandidateList kvs = some [] → summarize_results (Json.obj kvs) = some []) := by
  constructor
  · intro xs h
    show (match firstCandidateList kvs with
      | some xs => fmt_all xs
      | none => fmt_all (fallback_items kvs)) = fmt_all xs
    rw [h]
  · intro h
    show (match firstCandidateList kvs with
      | some xs => fmt_all xs
      | none => fmt_all (fallback_items kvs)) = some []
    rw [h]
    rfl

theorem summarize_commits_first_candidate_witness :
    summarize_results (Json.obj [("results", Json.arr []),
        ("site-a", Json.arr [Json.obj [("source", Json.str "x")]])]) = some [] ∧
    (fallback_items [("results", Json.arr []),
        ("site-a", Json.arr [Json.obj [("source", Json.str "x")]])]).length = 1 :=
  ⟨(summarize_commits_first_candidate _).2 rfl, rfl⟩

/-- C4 counterexample: with item `{"source": "", "site": "B"}` the key
`source` is present, so the claim requires the record's source to be its
value `""`; the code's `or`-chain skips the falsy `""` and yields `"B"`. -/
theorem fmt_source_presence_counterexample :
    fmt_breach_item (Json.obj [("source", Json.str ""), ("site", Json.str "B")]) =
      some ⟨Json.str "B", Json.str "",
        [], Json.obj [("source", Json.str ""), ("site", Json.str "B")]⟩ ∧
    Json.str "B" ≠ Json.str "" := by
  refine ⟨rfl, ?_⟩
  intro h
  injection h with h2
  exact absurd h2 (by decide)

/-- C4 (amended): per-item extraction is first-match-wins on key
*truthiness*, not presence: the record's source is the value of the first
key among `source`, `site`, `domain`, `Name` whose value is truthy
(defaulting to `"unknown"`), and its date is the first truthy value among
`date`, `BreachDate`, `created_at`, `publish_date` (defaulting to `""`);
keys present with falsy values are skipped. -/
theorem fmt_first_truthy_extraction (item : List (String × Json)) (r : BreachItem)
    (h : fmt_breach_item (Json.obj item) = some r) :
    r.name = firstTruthyValue ["source", "site", "domain", "Name"] item (Json.str "unknown") ∧
    r.date = firstTruthyValue ["date", "BreachDate", "created_at", "publish_date"] item
      (Json.str "") := by
  have h' : fmt_breach_obj item = some r := h
  unfold fmt_breach_obj at h'
  rcases hit : pyIterStr (pyOr (dict_to_keys (data_chain item)) (Json.arr [])) with _ | fields
  · rw [hit] at h'
    exact absurd h' (by simp)
  · rw [hit] at h'
    simp only [Option.some.injEq] at h'
    rw [← h']
    exact ⟨rfl, rfl⟩

theorem fmt_first_truthy_extraction_witness :
    Json.str "B" =
      firstTruthyValue ["source", "site", "domain", "Name"]
        [("source", Json.str ""), ("site", Json.str "B")] (Json.str "unknown") ∧
    Json.str "" =
      firstTruthyValue ["date", "BreachDate", "created_at", "publish_date"]
        [("source", Json.str ""), ("site", Json.str "B")] (Json.str "") :=
  fmt_first_truthy_extraction [("source", Json.str ""), ("site", Json.str "B")]
    ⟨Json.str "B", Json.str "", [], Json.obj [("source", Json.str ""), ("site", Json.str "B")]⟩
    rfl

theorem truthy_getD_eq_get (item : List (String × Json)) (k : String) :
    pyTruthy (pyGetD item k (Json.arr [])) = pyTruthy (pyGet item k) := by
  cases h : item.lookup k <;> simp [pyGetD, pyGet, h, pyTruthy]

theorem getD_eq_get_of_truthy (item : List (String × Json)) (k : String)
    (h : pyTruthy (pyGet item k) = true) :
    pyGetD item k (Json.arr []) = pyGet item k := by
  cases hl : item.lookup k
  · rw [pyGet, hl] at h
    simp [pyTruthy] at h
  · simp [pyGetD, pyGet, hl]

theorem data_chain_spec (item : List (String × Json)) :
    (pyTruthy (data_chain item) = true →
      firstTruthyValue ["data", "DataClasses", "types"] item (Json.arr []) = data_chain item) ∧
    (pyTruthy (data_chain item) = false →
      firstTruthyValue ["data", "DataClasses", "types"] item (Json.arr []) = Json.arr []) := by
  simp only [data_chain, firstTruthyValue, pyOr, truthy_getD_eq_get]
  by_cases t1 : pyTruthy (pyGet item "data")
  · simp [t1, getD_eq_get_of_truthy item "data" t1]
  · by_cases t2 : pyTruthy (pyGet item "DataClasses")
    · simp [t1, t2, getD_eq_get_of_truthy item "DataClasses" t2]
    · by_cases t3 : pyTruthy (pyGet item "types")
      · simp [t1, t2, t3, getD_eq_get_of_truthy item "types" t3]
      · simp [t1, t2, t3, truthy_getD_eq_get]

theorem pyIter_post_truthy (S : Json) (hS : pyTruthy S = true) :
    pyIterStr (pyOr (dict_to_keys S) (Json.arr [])) = spec_fields_of S := by
  cases S with
  | null => simp [pyTruthy] at hS
  | bool b =>
    cases b
    · simp [pyTruthy] at hS
    · simp [dict_to_keys, pyOr, pyTruthy, pyIterStr, spec_fields_of]
  | num n =>
    simp [pyTruthy] at hS
    simp [dict_to_keys, pyOr, pyTruthy, hS, pyIterStr, spec_fields_of]
  | str s =>
    simp [pyTruthy] at hS
    simp [dict_to_keys, pyOr, pyTruthy, hS, pyIterStr, spec_fields_of]
  | arr xs =>
    simp [pyTruthy] at hS
    simp [dict_to_keys, pyOr, pyTruthy, hS, pyIterStr, spec_fields_of]
  | obj kvs =>
    cases kvs with
    | nil => simp [pyTruthy] at hS
    | cons kv t =>
      simp only [dict_to_keys, pyOr, pyTruthy, pyIterStr, List.map_map, spec_fields_of,
        List.map_cons, List.isEmpty_cons, Bool.not_false, if_true, Option.some.injEq]
      have ht : List.map (pyStr ∘ Json.str ∘ Prod.fst) t = List.map Prod.fst t :=
        List.map_congr_left fun kv _ => rfl
      rw [ht]
      rfl

theorem pyIter_post_falsy (S : Json) (hS : pyTruthy S = false) :
    pyIterStr (pyOr (dict_to_keys S) (Json.arr [])) = some [] := by
  cases S with
  | null => simp [dict_to_keys, pyOr, pyTruthy, pyIterStr]
  | bool b =>
    cases b
    · simp [dict_to_keys, pyOr, pyTruthy, pyIterStr]
    · simp [pyTruthy] at hS
  | num n =>
    simp [pyTruthy] at hS
    simp [dict_to_keys, pyOr, pyTruthy, hS, pyIterStr]
  | str s =>
    simp [pyTruthy] at hS
    simp [dict_to_keys, pyOr, pyTruthy, hS, pyIterStr]
  | arr xs =>
    simp [pyTruthy] at hS
    simp [dict_to_keys, pyOr, pyTruthy, hS, pyIterStr]
  | obj kvs =>
    simp [pyTruthy] at hS
    simp [dict_to_keys, pyOr, pyTruthy, hS, pyIterStr]

theorem fmt_breach_obj_data (item : List (String × Json)) :
    Option.map BreachItem.data (fmt_breach_obj item) =
      pyIterStr (pyOr (dict_to_keys (data_chain item)) (Json.arr [])) := by
  unfold fmt_breach_obj
  cases pyIterStr (pyOr (dict_to_keys (data_chain item)) (Json.arr [])) <;> rfl

/-- C5 counterexample: with item `{"data": [], "DataClasses": ["x"]}` the
first *present* key among `data`, `DataClasses`, `types` is `data`, whose
sequence value `[]` the claim says becomes the (empty) field list; the
code's `or`-chain skips the falsy `[]` and takes `DataClasses`, yielding
`["x"]`. -/
theorem fmt_exposed_presence_counterexample :
    fmt_breach_item (Json.obj [("data", Json.arr []), ("DataClasses", Json.arr [Json.str "x"])]) =
      some ⟨Json.str "unknown", Json.str "", ["x"],
        Json.obj [("data", Json.arr []), ("DataClasses", Json.arr [Json.str "x"])]⟩ ∧
    ("x" :: []) ≠ ([] : List String) :=
  ⟨rfl, by decide⟩

/-- C5 (amended): the resolved exposed-fields value is the first *truthy*
value among `data`, `DataClasses`, `types` (keys present with falsy values
are skipped; when none is truthy the list is empty). A mapping value
contributes its key list, a sequence value contributes its elements coerced
to their string representations (duplicates preserved, as `List.map` keeps
length and order), a string value contributes its characters, and a truthy
non-iterable value raises `TypeError` (`none`); every element of the
resulting field list is a string (the `data` component's type). -/
theorem fmt_exposed_fields_first_truthy (item : List (String × Json)) :
    Option.map BreachItem.data (fmt_breach_item (Json.obj item)) = spec_exposed_fields item := by
  have hb : fmt_breach_item (Json.obj item) = fmt_breach_obj item := rfl
  rw [hb, fmt_breach_obj_data]
  unfold spec_exposed_fields
  by_cases hT : pyTruthy (data_chain item) = true
  · rw [(data_chain_spec item).1 hT, pyIter_post_truthy (data_chain item) hT]
  · have hF : pyTruthy (data_chain item) = false := by
      cases h : pyTruthy (data_chain item)
      · rfl
      · exact absurd h hT
    rw [(data_chain_spec item).2 hF, pyIter_post_falsy (data_chain item) hF]
    rfl

/-- C7: the reply for an empty record list is the fixed "no results"
message naming the queried email; for a non-empty list it is the header
built from the *full* record count (`len(results)`, not the displayed
count), followed by one block per record among the first 12 only
(`results[:12]`), followed by the fixed remediation-advice footer. -/
theorem handle_reply_report (email : String) (rs : List BreachItem) :
    (rs = [] → handle_reply email rs = no_results_msg email) ∧
    (rs ≠ [] →
      handle_reply email rs =
        String.intercalate "\n"
          (leak_header email rs.length :: (rs.take 12).map breach_line ++ [suggested_footer]) ∧
      ((rs.take 12).map breach_line).length = min 12 rs.length) := by
  constructor
  · intro h
    subst h
    rfl
  · intro h
    constructor
    · cases rs with
      | nil => exact absurd rfl h
      | cons r rest => rfl
    · rw [List.length_map, List.length_take]

theorem handle_reply_report_witness :
    handle_reply "a@b.c" [] = no_results_msg "a@b.c" :=
  (handle_reply_report "a@b.c" []).1 rfl

theorem dropWhile_cons_head_false (p : Char → Bool) :
    ∀ (l : List Char) (c : Char) (cs : List Char), l.dropWhile p = c :: cs → p c = false := by
  intro l
  induction l with
  | nil => intro c cs h; simp [List.dropWhile] at h
  | cons x xs ih =>
    intro c cs h
    by_cases hx : p x
    · rw [List.dropWhile_cons, if_pos hx] at h
      exact ih c cs h
    · rw [List.dropWhile_cons, if_neg hx] at h
      cases h
      exact Bool.eq_false_iff.mpr hx

theorem pyStrip_idem (s : List Char) : pyStrip (pyStrip s) = pyStrip s := by
  unfold pyStrip
  have h1 : List.dropWhile Char.isWhitespace
      (List.rdropWhile Char.isWhitespace (List.dropWhile Char.isWhitespace s)) =
      List.rdropWhile Char.isWhitespace (List.dropWhile Char.isWhitespace s) := by
    rcases hC : List.rdropWhile Char.isWhitespace (List.dropWhile Char.isWhitespace s)
      with _ | ⟨c, cs⟩
    · simp
    · obtain ⟨u, hu⟩ := List.dropWhile_suffix (l := (List.dropWhile Char.isWhitespace s).reverse)
        Char.isWhitespace
      have hA : List.dropWhile Char.isWhitespace s = (c :: cs) ++ u.reverse := by
        have : List.dropWhile Char.isWhitespace s =
            ((List.dropWhile Char.isWhitespace s).reverse).reverse := by
          rw [List.reverse_reverse]
        rw [this, ← hu, List.reverse_append]
        rw [List.rdropWhile] at hC
        rw [hC]
      have hpc : Char.isWhitespace c = false :=
        dropWhile_cons_head_false Char.isWhitespace s c (cs ++ u.reverse) (by simpa using hA)
      rw [List.dropWhile_cons, if_neg (by simp [hpc])]
  rw [h1, List.rdropWhile_idempotent]

/-- C8: any incoming text that fails the plausible-email check — after
stripping it has no `@`, or the part after its last `@` (Python
`s.split("@")[-1]`) has no `.` — makes `handle_check` reply with the
format-hint message and return before `leaklookup_query` is ever reached
(no network call). -/
theorem handler_rejects_implausible_email (text : List Char)
    (h : (pyStrip text).contains '@' = false ∨
      ((pySplitOn '@' (pyStrip text)).getLastD []).contains '.' = false) :
    handle_check_route text = HandlerStep.reject format_hint_msg ∧
    ∀ e, handle_check_route text ≠ HandlerStep.lookup e := by
  have hlike : is_likely_email (pyStrip text) = false := by
    show ((pyStrip (pyStrip text)).contains '@' &&
      ((pySplitOn '@' (pyStrip (pyStrip text))).getLastD []).contains '.') = false
    rw [pyStrip_idem]
    rcases h with h | h
    · rw [h, Bool.false_and]
    · rw [h, Bool.and_false]
  have hroute : handle_check_route text = HandlerStep.reject format_hint_msg := by
    unfold handle_check_route
    simp [hlike]
  refine ⟨hroute, ?_⟩
  intro e hEq
  rw [hroute] at hEq
  exact HandlerStep.noConfusion hEq

theorem handler_rejects_implausible_email_witness :
    handle_check_route "not-an-email".data = HandlerStep.reject format_hint_msg :=
  (handler_rejects_implausible_email "not-an-email".data (Or.inl (by decide))).1

/-- C9 counterexample: the claim as stated is refuted. A transport failure
whose exception text embeds the request URL (as `requests` exceptions do,
and the URL carries the `key` parameter) produces a detail that contains
the configured credential verbatim. -/
theorem leak_detail_contains_credential :
    (leaklookup_query (some "SECRETKEY") "a@b.c"
        (RequestResult.exn
          "Max retries exceeded with url: /api/search?key=SECRETKEY&type=email&query=a@b.c")).2 =
      some "Request failed: Max retries exceeded with url: /api/search?key=SECRETKEY&type=email&query=a@b.c" ∧
    strOccurs "SECRETKEY"
      "Request failed: Max retries exceeded with url: /api/search?key=SECRETKEY&type=email&query=a@b.c" = true := by
  constructor
  · rfl
  · decide

/-- C9 (amended): no failure detail of `leaklookup_query` is built from the
credential value itself — for any two configured non-empty credentials (and
any query emails) an identical network outcome yields the identical error
detail — and the non-success-HTTP detail is exactly the status code plus at
most the first 400 characters of the response body. The detail can still
contain the credential when the network outcome's own text (exception
message, response body, or provider message) embeds it. -/
theorem leak_detail_credential_independent (k₁ k₂ email₁ email₂ : String)
    (net : RequestResult) (h₁ : k₁ ≠ "") (h₂ : k₂ ≠ "") :
    (leaklookup_query (some k₁) email₁ net).2 = (leaklookup_query (some k₂) email₂ net).2 ∧
    (∀ r : HttpResponse, net = RequestResult.ok r → r.status_code ≠ 200 →
      (leaklookup_query (some k₁) email₁ net).2 =
        some ("HTTP " ++ toString r.status_code ++ ": " ++ r.text.take 400)) := by
  have c₁ : ¬ (some k₁ = none ∨ some k₁ = some "") := by simp [h₁]
  have c₂ : ¬ (some k₂ = none ∨ some k₂ = some "") := by simp [h₂]
  constructor
  · unfold leaklookup_query
    rw [if_neg c₁, if_neg c₂]
  · intro r hr hs
    subst hr
    unfold leaklookup_query
    rw [if_neg c₁]
    simp only [if_pos hs]

theorem leak_detail_credential_independent_witness :
    (leaklookup_query (some "A") "a@b.c"
        (RequestResult.ok ⟨500, "server error", Except.error "x"⟩)).2 =
      (leaklookup_query (some "B") "x@y.z"
        (RequestResult.ok ⟨500, "server error", Except.error "x"⟩)).2 ∧
    (leaklookup_query (some "A") "a@b.c"
        (RequestResult.ok ⟨500, "server error", Except.error "x"⟩)).2 =
      some ("HTTP " ++ toString 500 ++ ": " ++ ("server error").take 400) := by
  constructor
  · exact (leak_detail_credential_independent "A" "B" "a@b.c" "x@y.z"
      (RequestResult.ok ⟨500, "server error", Except.error "x"⟩) (by decide) (by decide)).1
  · exact (leak_detail_credential_independent "A" "B" "a@b.c" "x@y.z"
      (RequestResult.ok ⟨500, "server error", Except.error "x"⟩) (by decide) (by decide)).2
      ⟨500, "server error", Except.error "x"⟩ rfl (by decide)
